import Mathlib

/-!
Shallow embedding of the Card Morph widget
(src/src/components/card-morph/dist/card-morph.js) and proofs about its
gallery strip, view open/close state machine, and lightbox.

Pixel quantities (offsets, widths, velocities, wheel deltas) are modelled
as rationals; DOM elements are modelled by the attributes the widget reads
and writes.
-/

namespace CardMorph

/-- Rendered dimensions read by the updateBounds closure:
gallerySection.offsetWidth and gallery.scrollWidth. -/
structure GalleryDims where
  containerWidth : ℚ
  galleryWidth : ℚ
deriving Repr, DecidableEq

/-- Drag bounds object as returned by updateBounds: \x7b minX, maxX \x7d. -/
structure DragBounds where
  minX : ℚ
  maxX : ℚ
deriving Repr, DecidableEq

/-- Math.max on rationals, written with an explicit comparison so that
it evaluates by kernel reduction. -/
def jsMax (a b : ℚ) : ℚ := if a ≤ b then b else a

/-- Math.min on rationals. -/
def jsMin (a b : ℚ) : ℚ := if a ≤ b then a else b

/-- Math.abs on rationals. -/
def jsAbs (q : ℚ) : ℚ := if q < 0 then -q else q

/-- JavaScript clamp idiom used throughout the file:
Math.max(lo, Math.min(hi, v)). -/
def jsClamp (lo hi v : ℚ) : ℚ := jsMax lo (jsMin hi v)

/-- The updateBounds closure (card-morph.js lines 1481-1486):
maxDrag = Math.max(0, galleryWidth - containerWidth + 40);
returns \x7b minX: -maxDrag, maxX: 0 \x7d. -/
def updateBounds (d : GalleryDims) : DragBounds :=
  let maxDrag := jsMax 0 (d.galleryWidth - d.containerWidth + 40)
  { minX := -maxDrag, maxX := 0 }

/-- State of the draggable gallery strip: current dimensions, the bounds
currently applied to the Draggable handle (set at creation, refreshed by
applyBounds in the resize handler), the current x offset, and the velocity
tracking variables lastX / lastTime / velocity. -/
structure DragTracker where
  dims : GalleryDims
  appliedBounds : DragBounds
  x : ℚ
  lastX : ℚ
  lastTime : ℚ
  velocity : ℚ
deriving Repr, DecidableEq

/-- The onDragStart callback (lines 1513-1517): lastX = this.x;
lastTime = Date.now(); velocity = 0. It touches nothing else; in
particular it does not recompute or re-apply bounds. -/
def onDragStart (t : DragTracker) (now : ℚ) : DragTracker :=
  { t with lastX := t.x, lastTime := now, velocity := 0 }

/-- The debounced resize handler body (lines 1589-1592):
activeDraggable.applyBounds(updateBounds()). -/
def resizeSettled (t : DragTracker) : DragTracker :=
  { t with appliedBounds := updateBounds t.dims }

/-- Result of the onDragEnd callback: either a momentum tween command
(target offset, duration in seconds, easing identifier) handed to
gsap.to, or no tween at all. -/
inductive SettleAction where
  | tween (targetX duration : ℚ) (ease : String)
  | noTween
deriving Repr, DecidableEq

/-- The onDragEnd callback (lines 1528-1542): if Math.abs(velocity) > 1,
tween to clamp(this.x + velocity * 15, bounds.minX, bounds.maxX) over
0.8 s with power3.out easing, where bounds = updateBounds(); otherwise
the callback body does nothing. -/
def onDragEnd (t : DragTracker) : SettleAction :=
  if 1 < jsAbs t.velocity then
    let bounds := updateBounds t.dims
    let throwDistance := t.velocity * 15
    let targetX := jsClamp bounds.minX bounds.maxX (t.x + throwDistance)
    .tween targetX (4/5) "power3.out"
  else
    .noTween

/-- Modelled from the spec: the settle behaviour of the external Draggable
engine on release is not in src; the spec describes the drag protocol as
"otherwise settle immediately at the clamped current offset". The offset
the strip settles at after release is the tween target when onDragEnd
issued a momentum tween, and otherwise the current offset clamped to the
freshly computed bounds. -/
def settledOffset (t : DragTracker) : ℚ :=
  match onDragEnd t with
  | .tween targetX _ _ => targetX
  | .noTween => jsClamp (updateBounds t.dims).minX (updateBounds t.dims).maxX t.x

/-- Hidden-class state of the two navigation arrows. -/
structure ArrowStates where
  prevHidden : Bool
  nextHidden : Bool
deriving Repr, DecidableEq

/-- The updateArrowStates closure (lines 1489-1499):
prevArrow gets the hidden class iff currentX >= 0, nextArrow iff
currentX <= bounds.minX, with bounds = updateBounds(). -/
def updateArrowStates (currentX : ℚ) (d : GalleryDims) : ArrowStates :=
  let bounds := updateBounds d
  { prevHidden := decide (0 ≤ currentX)
    nextHidden := decide (currentX ≤ bounds.minX) }

/-- Wheel event fields read by the gallery wheel handler. -/
structure GWheelEvent where
  deltaX : ℚ
  deltaY : ℚ
deriving Repr, DecidableEq

/-- Outcome of the wheel handler: whether the event was intercepted
(preventDefault / stopPropagation called) and the resulting offset. -/
structure WheelOutcome where
  intercepted : Bool
  x : ℚ
deriving Repr, DecidableEq

/-- The galleryWheelHandler closure (lines 1565-1582):
isHorizontalScroll = |deltaX| > |deltaY|; return untouched if not
horizontal or |deltaX| < 2; else intercept, compute
newX = clamp(currentX - deltaX, bounds), and gsap.set the new offset only
when |newX - currentX| > 0.1. -/
def galleryWheelHandler (currentX : ℚ) (d : GalleryDims) (e : GWheelEvent) : WheelOutcome :=
  if jsAbs e.deltaX ≤ jsAbs e.deltaY ∨ jsAbs e.deltaX < 2 then
    { intercepted := false, x := currentX }
  else
    let bounds := updateBounds d
    let newX := jsClamp bounds.minX bounds.maxX (currentX - e.deltaX)
    if 1/10 < jsAbs (newX - currentX) then
      { intercepted := true, x := newX }
    else
      { intercepted := true, x := currentX }

/-- Stale-bounds input for the C5 counterexample: dimensions changed to
container 500, strip 1000 (formula bounds minX = -540) while the applied
bounds still read minX = -340 from an earlier layout. -/
def staleTracker : DragTracker :=
  { dims := { containerWidth := 500, galleryWidth := 1000 }
    appliedBounds := { minX := -340, maxX := 0 }
    x := 0, lastX := 0, lastTime := 0, velocity := 0 }

/-- Small gallery dimensions giving drag bounds [-100, 0]:
520 - 460 + 40 = 100. -/
def smallDims : GalleryDims := { containerWidth := 460, galleryWidth := 520 }

/-- A release with velocity 2 (above the threshold) at offset -50 on
smallDims, for the C6 witness momentum branch. -/
def throwTracker : DragTracker :=
  { dims := smallDims, appliedBounds := { minX := -100, maxX := 0 }
    x := -50, lastX := -50, lastTime := 0, velocity := 2 }

/-- A release with velocity 1/2 (below the threshold) at offset -150
(beyond the lower bound) on smallDims, for the C6 witness settle
branch. -/
def stillTracker : DragTracker :=
  { dims := smallDims, appliedBounds := { minX := -100, maxX := 0 }
    x := -150, lastX := -150, lastTime := 0, velocity := 1/2 }

/-- A view element, as far as the widget reads and writes it: its
identifier, whether it carries the cm-view--active class, its aria-hidden
attribute and its internal scroll position. -/
structure ViewEl where
  id : String
  activeClass : Bool
  ariaHidden : Bool
  scrollTop : ℚ
deriving Repr, DecidableEq

/-- The body scroll-lock styling written by openView (lines 1081-1085) and
cleared by finalizeClose (lines 1175-1179). topOffset = some p stands for
style.top = "-(p)px"; none stands for the empty string. -/
structure BodyStyle where
  overflowHidden : Bool
  positionFixed : Bool
  topOffset : Option ℚ
  fullWidth : Bool
  noScrollClass : Bool
deriving Repr, DecidableEq

/-- Body styling with every scroll-lock property removed. -/
def BodyStyle.clean : BodyStyle :=
  { overflowHidden := false, positionFixed := false, topOffset := none
    fullWidth := false, noScrollClass := false }

/-- Browser-history entries written by the widget: updateHash pushes a
fragment naming a view (line 1228); clearHash pushes the bare path
(line 1236). -/
inductive HistoryEntry where
  | viewHash (viewId : String)
  | cleared
deriving Repr, DecidableEq

/-- State of one CardMorph instance together with the page-global state
it mutates. cards holds the data-cm-view-id strings of the card elements
in the container; views the view elements. log collects console.warn
diagnostics. The five gallery-lifecycle booleans mirror the private
fields reset by cleanupGallery. -/
structure InstanceState where
  cards : List String
  views : List ViewEl
  activeView : Option String
  activeCard : Option String
  scrollPosition : ℚ
  pageScrollY : ℚ
  body : BodyStyle
  lenisRunning : Bool
  escapeHandler : Bool
  galleryKeyHandler : Bool
  activeDraggable : Bool
  draggableCreating : Bool
  galleryNav : Bool
  wheelHandler : Bool
  resizeHandlerOn : Bool
  historyStack : List HistoryEntry
  log : List String
deriving Repr, DecidableEq

/-- The per-view mutation performed while opening (lines 1088-1092):
reset scrollTop, add the active class, unhide from assistive tech. Other
views are untouched. -/
def activateViewEl (viewId : String) (v : ViewEl) : ViewEl :=
  if v.id == viewId then { v with scrollTop := 0, activeClass := true, ariaHidden := false }
  else v

/-- The per-view mutation performed by finalizeClose (lines 1162-1163):
remove the active class and hide from assistive tech. -/
def deactivateViewEl (viewId : String) (v : ViewEl) : ViewEl :=
  if v.id == viewId then { v with activeClass := false, ariaHidden := true }
  else v

/-- The private method openView (lines 1051-1145). The card argument is
its data-cm-view-id string. Looks up the view element; when absent, logs
a console.warn diagnostic and returns (lines 1058-1061). When present:
records the scroll position, sets activeView / activeCard, pushes the
hash unless skipHistory, stops Lenis, applies the body scroll lock,
resets and activates the view element, and registers the Escape
listener. The entrance animation, gallery construction in
requestAnimationFrame, focus move, event dispatch and announcement
mutate nothing modelled here. -/
def openView (s : InstanceState) (cardId : String) (skipHistory : Bool) : InstanceState :=
  match s.views.find? (fun v => v.id == cardId) with
  | none => { s with log := s.log ++ ["CardMorph: View not found for " ++ cardId] }
  | some _ =>
    let scrollPos := s.pageScrollY
    let s1 := { s with scrollPosition := scrollPos
                       activeView := some cardId
                       activeCard := some cardId }
    let s2 := if skipHistory then s1
              else { s1 with historyStack := HistoryEntry.viewHash cardId :: s1.historyStack }
    let s3 := { s2 with lenisRunning := false }
    let s4 := { s3 with body := { overflowHidden := true, positionFixed := true
                                  topOffset := some scrollPos, fullWidth := true
                                  noScrollClass := true } }
    let s5 := { s4 with views := s4.views.map (activateViewEl cardId) }
    { s5 with escapeHandler := true }

/-- The public open method for a string argument (lines 1029-1043):
container.querySelector resolves the id to a card element; when no card
matches, the method silently does nothing (the if at line 1040 has no
else branch and nothing is logged); otherwise openView runs with
skipHistory = false. -/
def openById (s : InstanceState) (id : String) : InstanceState :=
  match s.cards.find? (fun c => c == id) with
  | some cardId => openView s cardId false
  | none => s

/-- The cleanupGallery method (lines 1656-1703): removes the gallery
keyboard handler, kills the draggable and resets the creation flag,
removes the navigation container, removes the wheel listener (guarded by
the handler existing and activeView being set), and removes the resize
listener. -/
def cleanupGallery (s : InstanceState) : InstanceState :=
  let s1 := { s with galleryKeyHandler := false }
  let s2 := { s1 with activeDraggable := false, draggableCreating := false }
  let s3 := { s2 with galleryNav := false }
  let s4 := if s3.wheelHandler && s3.activeView.isSome
            then { s3 with wheelHandler := false } else s3
  { s4 with resizeHandlerOn := false }

/-- The finalizeClose method (lines 1159-1216): deactivates the view
element, removes the Escape listener, runs cleanupGallery, restores the
body styles, scrolls the window back to the recorded scrollPosition,
restarts Lenis, returns focus, dispatches the close event, and clears
activeView / activeCard. The trailing gsap.set calls only touch visual
opacity and the gallery transform. -/
def finalizeClose (s : InstanceState) (viewId : String) : InstanceState :=
  let s1 := { s with views := s.views.map (deactivateViewEl viewId) }
  let s2 := { s1 with escapeHandler := false }
  let s3 := cleanupGallery s2
  let s4 := { s3 with body := BodyStyle.clean }
  let s5 := { s4 with pageScrollY := s4.scrollPosition }
  let s6 := { s5 with lenisRunning := true }
  { s6 with activeView := none, activeCard := none }

/-- How the close transition resolves: the exit tween onComplete callback
fires; or it never fires and the 1000 ms safety timeout runs instead; or
reduced motion makes the cleanup synchronous (lines 1288-1297). -/
inductive ClosePath where
  | animCompletes
  | animStuck
  | reducedMotion
deriving Repr, DecidableEq

/-- The closeInternal method (lines 1264-1298): no-op without an active
view; clears the hash unless skipHistory; then either the tween
onComplete runs cleanupAndFinalize (clearTimeout plus finalizeClose), or
the safety timeout fires and, because activeView is still set, forces
finalizeClose, or reduced motion calls cleanupAndFinalize directly. -/
def closeInternal (s : InstanceState) (skipHistory : Bool) (path : ClosePath) : InstanceState :=
  match s.activeView with
  | none => s
  | some viewId =>
    let s1 := if skipHistory then s
              else { s with historyStack := HistoryEntry.cleared :: s.historyStack }
    match path with
    | .animCompletes => finalizeClose s1 viewId
    | .animStuck => if s1.activeView.isSome then finalizeClose s1 viewId else s1
    | .reducedMotion => finalizeClose s1 viewId

/-- The public close method (lines 1150-1152): closeInternal(false). -/
def close (s : InstanceState) (path : ClosePath) : InstanceState :=
  closeInternal s false path

/-- Counts the view elements carrying the active class. -/
def countActive (vs : List ViewEl) : Nat :=
  (vs.filter (fun v => v.activeClass)).length

/-- An instance with two cards and two matching inactive views, used for
the C1 counterexample and several witnesses. -/
def twoCardInstance : InstanceState :=
  { cards := ["a", "b"]
    views := [{ id := "a", activeClass := false, ariaHidden := true, scrollTop := 7 },
              { id := "b", activeClass := false, ariaHidden := true, scrollTop := 9 }]
    activeView := none, activeCard := none
    scrollPosition := 0, pageScrollY := 120
    body := BodyStyle.clean
    lenisRunning := true, escapeHandler := false
    galleryKeyHandler := false, activeDraggable := false, draggableCreating := false
    galleryNav := false, wheelHandler := false, resizeHandlerOn := false
    historyStack := [], log := [] }

/-- An instance whose card "ghost" has no matching view element, for the
C3 witness. -/
def ghostCardInstance : InstanceState :=
  { twoCardInstance with cards := ["ghost"], views := [] }

end CardMorph

namespace Lightbox

/-- Image descriptor collected from a gallery img element
(lines 1379-1383): src, alt, caption. -/
structure Image where
  src : String
  alt : String
  caption : String
deriving Repr, DecidableEq

/-- JavaScript array indexing images[i]: undefined (none) outside
[0, length). -/
def jsIndex (l : List Image) (i : Int) : Option Image :=
  if 0 ≤ i then l.get? i.toNat else none

/-- The lightbox DOM pieces written by loadImage (lines 465-495): the
image data a successful loadImage displayed last, the counter text, and
the disabled state of the two buttons. -/
structure DomState where
  lastLookup : Option Image
  counterCurrent : Int
  counterTotal : Nat
  prevDisabled : Bool
  nextDisabled : Bool
deriving Repr, DecidableEq

/-- The static Lightbox state: image list, current index, the isOpen and
isAnimating flags, whether the dialog is shown and the capture-phase key
handler installed, plus bookkeeping of how many transition animations
were started and which indices were preloaded. -/
structure State where
  images : List Image
  currentIndex : Int
  isOpen : Bool
  isAnimating : Bool
  dialogShown : Bool
  keyHandler : Bool
  dom : DomState
  animationsStarted : Nat
  preloads : List Int
deriving Repr, DecidableEq

/-- Result of a call into the Lightbox: either normal completion or a
surfaced exception. Both carry the static state as the call leaves it,
because mutations made before a throw persist on the class fields. -/
inductive CallResult where
  | normal (s : State)
  | thrown (msg : String) (s : State)
deriving Repr, DecidableEq

/-- The state the call leaves behind, on either outcome. -/
def CallResult.state : CallResult → State
  | .normal s => s
  | .thrown _ s => s

/-- Whether the call surfaced an exception. -/
def CallResult.threw : CallResult → Bool
  | .normal _ => false
  | .thrown _ _ => true

/-- The private loadImage method (lines 465-495): reads
imageData = images[index] (line 466). At an index outside [0, length)
that lookup is undefined, and the property access imageData.src at
line 484 throws a TypeError before the caption, counter and
disabled-button updates run — only the untracked loader visibility has
been touched, so the tracked state is unchanged. In range, it updates
the displayed image, the counter to index + 1, and disables prevBtn iff
index = 0 and nextBtn iff index = images.length - 1. The Image object
preload and its onload / onerror callbacks touch only untracked visual
state. -/
def loadImage (s : State) (index : Int) : CallResult :=
  match jsIndex s.images index with
  | none =>
    .thrown "TypeError: Cannot read properties of undefined (reading src)" s
  | some imageData =>
    .normal { s with dom := { s.dom with
        lastLookup := some imageData
        counterCurrent := index + 1
        prevDisabled := index == 0
        nextDisabled := index == (s.images.length : Int) - 1 } }

/-- The private preloadAdjacent method (lines 502-511): issues a preload
for each of index - 1 and index + 1 that lies inside [0, length). -/
def preloadAdjacent (s : State) (index : Int) : State :=
  let preloadIndices := [index - 1, index + 1].filter
    (fun i => decide (0 ≤ i) && decide (i < (s.images.length : Int)))
  { s with preloads := s.preloads ++ preloadIndices }

/-- The private goTo method (lines 445-458), run to animation completion:
rejected while animating or when the target index is outside
[0, length); otherwise sets isAnimating, starts the transition animation
whose midpoint callback sets currentIndex and runs loadImage, then
clears isAnimating and preloads the new neighbours. The range guard at
line 447 makes the loadImage throw branch unreachable here; were it
taken, the exception inside the animation callback would leave
isAnimating stuck true and skip the continuation. -/
def goTo (s : State) (index : Int) : State :=
  if s.isAnimating then s
  else if index < 0 ∨ (s.images.length : Int) ≤ index then s
  else
    let s1 := { s with isAnimating := true, animationsStarted := s.animationsStarted + 1 }
    match loadImage { s1 with currentIndex := index } index with
    | .normal s2 => preloadAdjacent { s2 with isAnimating := false } index
    | .thrown _ s2 => s2

/-- The static prev method (lines 425-428): no-op while animating or at
index 0; otherwise goTo(currentIndex - 1). -/
def prev (s : State) : State :=
  if s.isAnimating ∨ s.currentIndex = 0 then s
  else goTo s (s.currentIndex - 1)

/-- The static next method (lines 434-437): no-op while animating or at
index images.length - 1; otherwise goTo(currentIndex + 1). -/
def next (s : State) : State :=
  if s.isAnimating ∨ s.currentIndex = (s.images.length : Int) - 1 then s
  else goTo s (s.currentIndex + 1)

/-- The static open method (lines 332-389): rejected while already open
or animating, and for a null or empty image list; otherwise sets
isAnimating, stores the list and the unvalidated startIndex, shows the
dialog (line 350), and calls loadImage(startIndex) (line 353). When
loadImage throws (startIndex out of range), the exception propagates
out of open before the entrance-animation continuation, the key-handler
installation and the preloads, so isOpen stays false and isAnimating
stays stuck true while the earlier mutations persist. Otherwise the
entrance animation completes: isOpen := true, isAnimating := false, the
capture-phase key handler is installed, and the neighbours of
startIndex are preloaded. No range check is made on startIndex. -/
def openLightbox (s : State) (images : List Image) (startIndex : Int) : CallResult :=
  if s.isOpen ∨ s.isAnimating then .normal s
  else if images.isEmpty then .normal s
  else
    let s1 := { s with isAnimating := true
                       images := images
                       currentIndex := startIndex
                       dom := { s.dom with counterTotal := images.length }
                       dialogShown := true }
    match loadImage s1 startIndex with
    | .thrown msg s2 => .thrown msg s2
    | .normal s2 =>
      let s3 := { s2 with isOpen := true, isAnimating := false, keyHandler := true }
      .normal (preloadAdjacent s3 startIndex)

/-- A closed, idle lightbox holding five images at index 2, for the C9
witness scenario. -/
def fiveImageState : State :=
  { images := [{ src := "0.jpg", alt := "", caption := "" },
               { src := "1.jpg", alt := "", caption := "" },
               { src := "2.jpg", alt := "", caption := "" },
               { src := "3.jpg", alt := "", caption := "" },
               { src := "4.jpg", alt := "", caption := "" }]
    currentIndex := 2
    isOpen := true, isAnimating := false
    dialogShown := true, keyHandler := true
    dom := { lastLookup := none, counterCurrent := 3, counterTotal := 5
             prevDisabled := false, nextDisabled := false }
    animationsStarted := 0, preloads := [] }

/-- A closed, idle lightbox with empty untracked DOM, for the C10
witness. -/
def idleState : State :=
  { fiveImageState with images := [], currentIndex := 0, isOpen := false
                        dialogShown := false, keyHandler := false }

end Lightbox


section GalleryTheorems

open CardMorph

/-- The if-based Math.max agrees with the order-theoretic max. -/
theorem jsMax_eq (a b : ℚ) : jsMax a b = max a b := by
  unfold jsMax
  split
  · exact (max_eq_right (by assumption)).symm
  · exact (max_eq_left (le_of_not_le (by assumption))).symm

/-- The if-based Math.min agrees with the order-theoretic min. -/
theorem jsMin_eq (a b : ℚ) : jsMin a b = min a b := by
  unfold jsMin
  split
  · exact (min_eq_left (by assumption)).symm
  · exact (min_eq_right (le_of_not_le (by assumption))).symm

/-- The if-based Math.abs agrees with the absolute value. -/
theorem jsAbs_eq (q : ℚ) : jsAbs q = |q| := by
  unfold jsAbs
  split
  · exact (abs_of_neg (by assumption)).symm
  · exact (abs_of_nonneg (le_of_not_lt (by assumption))).symm

/-- The clamp result lies between its bounds when they are ordered. -/
theorem jsClamp_between (lo hi v : ℚ) (h : lo ≤ hi) :
    lo ≤ jsClamp lo hi v ∧ jsClamp lo hi v ≤ hi := by
  rw [jsClamp, jsMax_eq, jsMin_eq]
  exact ⟨le_max_left lo (min hi v), max_le h (min_le_left hi v)⟩

/-- The computed drag bounds are always ordered: minX ≤ 0 = maxX. -/
theorem updateBounds_ordered (d : GalleryDims) :
    (updateBounds d).minX ≤ (updateBounds d).maxX := by
  have h : (0 : ℚ) ≤ max 0 (d.galleryWidth - d.containerWidth + 40) := le_max_left 0 _
  simp only [updateBounds, jsMax_eq]
  exact neg_nonpos.mpr h

/-- C5 counterexample: with dimensions container 500 / strip 1000 the
formula bounds are minX = -540, but the onDragStart callback leaves the
stale applied bounds (minX = -340) in place, so the bounds are not
recomputed when a drag starts. -/
theorem C5_counterexample :
    (onDragStart staleTracker 100).appliedBounds ≠ updateBounds staleTracker.dims := by
  simp only [onDragStart, staleTracker, updateBounds, jsMax]
  norm_num [DragBounds.mk.injEq]

/-- C5 (amended): updateBounds returns minOffset =
-(max(0, stripWidth - containerWidth + 40)) and maxOffset = 0 with
padding 40; the settled resize handler re-applies updateBounds; but the
drag-start callback only resets the velocity tracking and leaves the
applied bounds untouched. -/
theorem C5_bounds_formula (d : GalleryDims) (t : DragTracker) (now : ℚ) :
    (updateBounds d).minX = -(max 0 (d.galleryWidth - d.containerWidth + 40)) ∧
    (updateBounds d).maxX = 0 ∧
    (resizeSettled t).appliedBounds = updateBounds t.dims ∧
    (onDragStart t now).appliedBounds = t.appliedBounds ∧
    (onDragStart t now).velocity = 0 :=
  ⟨by simp only [updateBounds, jsMax_eq], rfl, rfl, rfl, rfl⟩

/-- C6: on drag release, when the tracked velocity magnitude exceeds the
threshold 1 the gallery is tweened to
clamp(currentOffset + velocity * 15, minX, maxX) over 0.8 s with
power3.out (decelerating) easing; otherwise no tween is issued and the
strip settles at the clamped current offset; in both cases the settled
offset lies within [minX, maxX]. -/
theorem C6_drag_release (t : DragTracker) :
    (1 < |t.velocity| →
      onDragEnd t = SettleAction.tween
        (jsClamp (updateBounds t.dims).minX (updateBounds t.dims).maxX
          (t.x + t.velocity * 15)) (4/5) "power3.out") ∧
    (¬ 1 < |t.velocity| →
      onDragEnd t = SettleAction.noTween ∧
      settledOffset t =
        jsClamp (updateBounds t.dims).minX (updateBounds t.dims).maxX t.x) ∧
    (updateBounds t.dims).minX ≤ settledOffset t ∧
    settledOffset t ≤ (updateBounds t.dims).maxX := by
  have hb := updateBounds_ordered t.dims
  by_cases h : 1 < |t.velocity|
  · have he : onDragEnd t = SettleAction.tween
        (jsClamp (updateBounds t.dims).minX (updateBounds t.dims).maxX
          (t.x + t.velocity * 15)) (4/5) "power3.out" := by
      simp [onDragEnd, jsAbs_eq, h]
    have hs : settledOffset t =
        jsClamp (updateBounds t.dims).minX (updateBounds t.dims).maxX
          (t.x + t.velocity * 15) := by
      simp [settledOffset, he]
    have hcl := jsClamp_between (updateBounds t.dims).minX (updateBounds t.dims).maxX
      (t.x + t.velocity * 15) hb
    exact ⟨fun _ => he, fun h2 => absurd h h2, hs ▸ hcl.1, hs ▸ hcl.2⟩
  · have he : onDragEnd t = SettleAction.noTween := by
      simp [onDragEnd, jsAbs_eq, h]
    have hs : settledOffset t =
        jsClamp (updateBounds t.dims).minX (updateBounds t.dims).maxX t.x := by
      simp [settledOffset, he]
    have hcl := jsClamp_between (updateBounds t.dims).minX (updateBounds t.dims).maxX t.x hb
    exact ⟨fun h2 => absurd h2 h, fun _ => ⟨he, hs⟩, hs ▸ hcl.1, hs ▸ hcl.2⟩

/-- C6 witness: a concrete release with velocity 2 at offset -50 issues
the momentum tween, and a concrete release with velocity 1/2 at offset
-150 issues no tween and settles at the clamped offset. -/
theorem C6_witness :
    (1 < |throwTracker.velocity| ∧
      onDragEnd throwTracker = SettleAction.tween
        (jsClamp (updateBounds throwTracker.dims).minX
          (updateBounds throwTracker.dims).maxX
          (throwTracker.x + throwTracker.velocity * 15)) (4/5) "power3.out") ∧
    (¬ 1 < |stillTracker.velocity| ∧
      onDragEnd stillTracker = SettleAction.noTween ∧
      settledOffset stillTracker =
        jsClamp (updateBounds stillTracker.dims).minX
          (updateBounds stillTracker.dims).maxX stillTracker.x) :=
  ⟨⟨by norm_num [throwTracker],
    (C6_drag_release throwTracker).1 (by norm_num [throwTracker])⟩,
   ⟨by norm_num [stillTracker, abs_le],
    (C6_drag_release stillTracker).2.1 (by norm_num [stillTracker, abs_le])⟩⟩

/-- C7 counterexample: on bounds [-100, 0], at offset -1999/20 = -99.95
a horizontal wheel event with deltaX = 2 is intercepted, the clamp value
is -100, but since the movement would be only 1/20 ≤ 1/10 px the handler
leaves the offset at -99.95 instead of setting it to the clamp value, so
an intercepted event does not always set the offset to
clamp(currentOffset - deltaX, minOffset, maxOffset). -/
theorem C7_counterexample :
    (galleryWheelHandler (-1999/20) smallDims { deltaX := 2, deltaY := 0 }).intercepted = true ∧
    (galleryWheelHandler (-1999/20) smallDims { deltaX := 2, deltaY := 0 }).x ≠
      jsClamp (updateBounds smallDims).minX (updateBounds smallDims).maxX
        ((-1999/20) - 2) := by
  have h1 : galleryWheelHandler (-1999/20) smallDims { deltaX := 2, deltaY := 0 } =
      { intercepted := true, x := -1999/20 } := by
    norm_num [galleryWheelHandler, smallDims, updateBounds, jsAbs, jsMax, jsMin, jsClamp]
  rw [h1]
  norm_num [smallDims, updateBounds, jsClamp, jsMax, jsMin]

/-- C8: whenever arrow states are updated, the previous arrow is hidden
iff the offset is ≥ 0 and the next arrow is hidden iff the offset is
≤ minX; at any interior offset both arrows are visible. -/
theorem C8_arrow_visibility (x : ℚ) (d : GalleryDims) :
    ((updateArrowStates x d).prevHidden = true ↔ 0 ≤ x) ∧
    ((updateArrowStates x d).nextHidden = true ↔ x ≤ (updateBounds d).minX) ∧
    ((updateBounds d).minX < x → x < 0 →
      (updateArrowStates x d).prevHidden = false ∧
      (updateArrowStates x d).nextHidden = false) := by
  refine ⟨?_, ?_, fun h1 h2 => ⟨?_, ?_⟩⟩
  · simp [updateArrowStates]
  · simp [updateArrowStates]
  · have h := not_le.mpr h2
    simp [updateArrowStates, h]
  · have h := not_le.mpr h1
    simp [updateArrowStates, h]

/-- C8 witness: on bounds [-100, 0], at offset 0 only the previous arrow
is hidden, at offset -100 only the next arrow is hidden, and at the
interior offset -50 both arrows are visible. -/
theorem C8_witness :
    ((updateArrowStates (-50) smallDims).prevHidden = false ∧
     (updateArrowStates (-50) smallDims).nextHidden = false) ∧
    (updateArrowStates 0 smallDims).prevHidden = true ∧
    (updateArrowStates (-100) smallDims).nextHidden = true :=
  ⟨(C8_arrow_visibility (-50) smallDims).2.2
      (by norm_num [updateBounds, jsMax, smallDims]) (by norm_num),
   (C8_arrow_visibility 0 smallDims).1.mpr le_rfl,
   (C8_arrow_visibility (-100) smallDims).2.1.mpr
      (by norm_num [updateBounds, jsMax, smallDims])⟩

end GalleryTheorems

section ViewTheorems

open CardMorph

/-- Evaluation of openView when the view element exists: the full record
of effects, in the order the source performs them. -/
theorem openView_found (s : InstanceState) (cardId : String) (v : ViewEl)
    (hv : s.views.find? (fun w => w.id == cardId) = some v) :
    openView s cardId false =
      { s with scrollPosition := s.pageScrollY
               activeView := some cardId
               activeCard := some cardId
               historyStack := HistoryEntry.viewHash cardId :: s.historyStack
               lenisRunning := false
               body := { overflowHidden := true, positionFixed := true
                         topOffset := some s.pageScrollY, fullWidth := true
                         noScrollClass := true }
               views := s.views.map (activateViewEl cardId)
               escapeHandler := true } := by
  simp [openView, hv]

/-- The close path always reduces to finalizeClose on the state with the
cleared-hash history entry, for every resolution of the exit animation:
in particular the safety timeout path finds activeView still set and
forces the cleanup. -/
theorem close_reduces (s : InstanceState) (viewId : String) (p : ClosePath)
    (h : s.activeView = some viewId) :
    close s p =
      finalizeClose { s with historyStack := HistoryEntry.cleared :: s.historyStack } viewId := by
  unfold close closeInternal
  cases p <;> simp [h]

/-- The fields finalizeClose leaves the instance in, whenever a view is
active when close begins. -/
theorem close_cleanup_fields (s : InstanceState) (viewId : String) (p : ClosePath)
    (h : s.activeView = some viewId) :
    (close s p).body = BodyStyle.clean ∧
    (close s p).lenisRunning = true ∧
    (close s p).activeView = none ∧
    (close s p).activeCard = none ∧
    (close s p).escapeHandler = false ∧
    (close s p).galleryKeyHandler = false ∧
    (close s p).wheelHandler = false ∧
    (close s p).resizeHandlerOn = false ∧
    (close s p).pageScrollY = s.scrollPosition := by
  rw [close_reduces s viewId p h]
  cases hw : s.wheelHandler <;>
    simp [finalizeClose, cleanupGallery, hw, h]

/-- C1 counterexample: on an instance with cards "a" and "b", opening
"a" and then opening "b" while "a" is still open leaves TWO views
carrying the active class and overwrites activeView to "b" — the second
open call is not a no-op and the single-active-view invariant fails. -/
theorem C1_counterexample :
    countActive (openById (openById twoCardInstance "a") "b").views = 2 ∧
    (openById (openById twoCardInstance "a") "b").activeView = some "b" ∧
    (openById twoCardInstance "a").activeView = some "a" := by
  decide

/-- C1 (amended): a second open call while a View is open is not
guarded: whenever the identifier resolves to a card and its view
element exists, openView proceeds, overwrites the active-view
bookkeeping with the new view, and adds active styling to the new view
without removing it from any other view — so a previously active view
stays active alongside the new one. -/
theorem C1_open_while_open (s : InstanceState) (id cardId vid0 : String) (v : ViewEl)
    (_hactive : s.activeView = some vid0)
    (hcard : s.cards.find? (fun c => c == id) = some cardId)
    (hview : s.views.find? (fun w => w.id == cardId) = some v) :
    (openById s id).activeView = some cardId ∧
    (openById s id).views = s.views.map (activateViewEl cardId) ∧
    (∀ w ∈ s.views, w.activeClass = true → ¬ w.id = cardId →
      ∃ w2 ∈ (openById s id).views, w2.id = w.id ∧ w2.activeClass = true) := by
  have he : openById s id = openView s cardId false := by
    simp [openById, hcard]
  rw [he, openView_found s cardId v hview]
  refine ⟨rfl, rfl, ?_⟩
  intro w hw hact hne
  refine ⟨activateViewEl cardId w, List.mem_map_of_mem _ hw, ?_, ?_⟩
  · simp [activateViewEl, hne]
  · simp [activateViewEl, hne, hact]

/-- C1 witness: the amended statement applied after opening "a" on the
two-card instance and then opening "b". -/
theorem C1_witness :
    (openById (openById CardMorph.twoCardInstance "a") "b").activeView = some "b" ∧
    (openById (openById CardMorph.twoCardInstance "a") "b").views =
      (openById CardMorph.twoCardInstance "a").views.map (activateViewEl "b") ∧
    (∀ w ∈ (openById CardMorph.twoCardInstance "a").views, w.activeClass = true →
      ¬ w.id = "b" →
      ∃ w2 ∈ (openById (openById CardMorph.twoCardInstance "a") "b").views,
        w2.id = w.id ∧ w2.activeClass = true) :=
  C1_open_while_open (openById CardMorph.twoCardInstance "a") "b" "b" "a"
    { id := "b", activeClass := false, ariaHidden := true, scrollTop := 9 }
    (by decide) (by decide) (by decide)

/-- C2: for every close call on an instance with an active view, under
every resolution of the exit animation — the completion callback fires,
it never fires and the safety timeout forces the cleanup, or reduced
motion short-circuits — the instance reaches the fully closed state:
scroll-lock styling removed, Lenis restarted, active view and card
cleared, Escape listener removed, gallery listeners torn down, and the
page scrolled back to the recorded offset. -/
theorem C2_close_forces_cleanup (s : InstanceState) (viewId : String) (p : ClosePath)
    (h : s.activeView = some viewId) :
    (close s p).body = BodyStyle.clean ∧
    (close s p).lenisRunning = true ∧
    (close s p).activeView = none ∧
    (close s p).activeCard = none ∧
    (close s p).escapeHandler = false ∧
    (close s p).galleryKeyHandler = false ∧
    (close s p).wheelHandler = false ∧
    (close s p).resizeHandlerOn = false ∧
    (close s p).pageScrollY = s.scrollPosition :=
  close_cleanup_fields s viewId p h

/-- C2 witness: closing the opened two-card instance along the
stuck-animation path (the completion callback never fires and the
safety timeout performs the cleanup). -/
theorem C2_witness :
    (close (openById CardMorph.twoCardInstance "a") ClosePath.animStuck).body = BodyStyle.clean ∧
    (close (openById CardMorph.twoCardInstance "a") ClosePath.animStuck).lenisRunning = true ∧
    (close (openById CardMorph.twoCardInstance "a") ClosePath.animStuck).activeView = none ∧
    (close (openById CardMorph.twoCardInstance "a") ClosePath.animStuck).activeCard = none ∧
    (close (openById CardMorph.twoCardInstance "a") ClosePath.animStuck).escapeHandler = false ∧
    (close (openById CardMorph.twoCardInstance "a") ClosePath.animStuck).galleryKeyHandler = false ∧
    (close (openById CardMorph.twoCardInstance "a") ClosePath.animStuck).wheelHandler = false ∧
    (close (openById CardMorph.twoCardInstance "a") ClosePath.animStuck).resizeHandlerOn = false ∧
    (close (openById CardMorph.twoCardInstance "a") ClosePath.animStuck).pageScrollY =
      (openById CardMorph.twoCardInstance "a").scrollPosition :=
  C2_close_forces_cleanup (openById CardMorph.twoCardInstance "a") "a"
    ClosePath.animStuck (by decide)

/-- C3 counterexample: opening with the identifier "zzz", which matches
no card (and hence resolves to no view element), leaves the instance
entirely unchanged — including the console log, which stays empty, so
no diagnostic is logged, contradicting the claim that a failed
resolution always logs one. -/
theorem C3_counterexample :
    openById CardMorph.twoCardInstance "zzz" = CardMorph.twoCardInstance ∧
    CardMorph.twoCardInstance.log = [] := by
  decide

/-- C3 (amended): open(id) with an identifier that resolves to no view
element never surfaces an exception and leaves the instance state
unchanged; a console diagnostic is logged only when the identifier
resolves to a card whose view element is missing — when no card
matches, the call silently does nothing and logs nothing. -/
theorem C3_open_miss (s : InstanceState) (id cardId : String) :
    (s.cards.find? (fun c => c == id) = none → openById s id = s) ∧
    (s.cards.find? (fun c => c == id) = some cardId →
      s.views.find? (fun w => w.id == cardId) = none →
      (openById s id).log = s.log ++ ["CardMorph: View not found for " ++ cardId] ∧
      { openById s id with log := s.log } = s) := by
  constructor
  · intro h
    simp [openById, h]
  · intro h1 h2
    have he : openById s id =
        { s with log := s.log ++ ["CardMorph: View not found for " ++ cardId] } := by
      simp [openById, h1, openView, h2]
    rw [he]
    exact ⟨rfl, rfl⟩

/-- C3 witness: both branches of the amended statement at concrete
inputs — "zzz" matches no card of the two-card instance; "ghost"
matches a card of the ghost instance but no view element exists, so
only the log changes and the warning is appended. -/
theorem C3_witness :
    (openById CardMorph.twoCardInstance "zzz" = CardMorph.twoCardInstance) ∧
    ((openById CardMorph.ghostCardInstance "ghost").log =
      CardMorph.ghostCardInstance.log ++ ["CardMorph: View not found for " ++ "ghost"] ∧
     { openById CardMorph.ghostCardInstance "ghost" with
         log := CardMorph.ghostCardInstance.log } = CardMorph.ghostCardInstance) :=
  ⟨(C3_open_miss CardMorph.twoCardInstance "zzz" "zzz").1 (by decide),
   (C3_open_miss CardMorph.ghostCardInstance "ghost" "ghost").2 (by decide) (by decide)⟩

/-- C4: after open(id) resolves a card and its view, the scroll offset
recorded at open time equals the pre-open page scroll, the body lock
pins the body at that negative offset, and after any completed close
the body scroll-lock styling is fully removed and the page scroll
position equals the recorded value — the open/close round trip restores
the pre-open scroll state. -/
theorem C4_roundtrip (s : InstanceState) (id cardId : String) (v : ViewEl) (p : ClosePath)
    (hcard : s.cards.find? (fun c => c == id) = some cardId)
    (hview : s.views.find? (fun w => w.id == cardId) = some v) :
    (openById s id).scrollPosition = s.pageScrollY ∧
    (openById s id).body.topOffset = some s.pageScrollY ∧
    (close (openById s id) p).body = BodyStyle.clean ∧
    (close (openById s id) p).pageScrollY = s.pageScrollY := by
  have he : openById s id = openView s cardId false := by
    simp [openById, hcard]
  have hrec := openView_found s cardId v hview
  have hact : (openById s id).activeView = some cardId := by
    rw [he, hrec]
  have hsp : (openById s id).scrollPosition = s.pageScrollY := by
    rw [he, hrec]
  have hclean := close_cleanup_fields (openById s id) cardId p hact
  refine ⟨hsp, ?_, hclean.1, ?_⟩
  · rw [he, hrec]
  · rw [hclean.2.2.2.2.2.2.2.2, hsp]

/-- C4 witness: the round trip on the two-card instance with page scroll
120: opening "a" records 120, pins the body at -120px, and the
completed close restores a clean body and scroll position 120. -/
theorem C4_witness :
    (openById CardMorph.twoCardInstance "a").scrollPosition =
      CardMorph.twoCardInstance.pageScrollY ∧
    (openById CardMorph.twoCardInstance "a").body.topOffset =
      some CardMorph.twoCardInstance.pageScrollY ∧
    (close (openById CardMorph.twoCardInstance "a") ClosePath.animCompletes).body =
      BodyStyle.clean ∧
    (close (openById CardMorph.twoCardInstance "a") ClosePath.animCompletes).pageScrollY =
      CardMorph.twoCardInstance.pageScrollY :=
  C4_roundtrip CardMorph.twoCardInstance "a" "a"
    { id := "a", activeClass := false, ariaHidden := true, scrollTop := 7 }
    ClosePath.animCompletes (by decide) (by decide)

end ViewTheorems

section LightboxTheorems

open Lightbox

/-- The JavaScript array lookup succeeds exactly on indices inside
[0, length). -/
theorem jsIndex_in_range (l : List Image) (i : Int) (h0 : 0 ≤ i)
    (hlen : i < (l.length : Int)) : ∃ img, jsIndex l i = some img := by
  unfold jsIndex
  rw [if_pos h0]
  have hn : i.toNat < l.length := by omega
  exact ⟨l.get ⟨i.toNat, hn⟩, List.get?_eq_get hn⟩

/-- C9: next() at the last index and prev() at index 0 are no-ops with
no animation triggered; both are no-ops while a transition animation is
in flight; otherwise, from a valid index, each call moves the current
index by exactly one in its direction and starts exactly one transition
animation. -/
theorem C9_nav_bounds (s : State) :
    (s.currentIndex = (s.images.length : Int) - 1 → next s = s) ∧
    (s.currentIndex = 0 → prev s = s) ∧
    (s.isAnimating = true → next s = s ∧ prev s = s) ∧
    (s.isAnimating = false → 0 ≤ s.currentIndex →
      s.currentIndex < (s.images.length : Int) →
      (s.currentIndex ≠ (s.images.length : Int) - 1 →
        (next s).currentIndex = s.currentIndex + 1 ∧
        (next s).animationsStarted = s.animationsStarted + 1) ∧
      (s.currentIndex ≠ 0 →
        (prev s).currentIndex = s.currentIndex - 1 ∧
        (prev s).animationsStarted = s.animationsStarted + 1)) := by
  refine ⟨?_, ?_, ?_, ?_⟩
  · intro h
    simp [next, h]
  · intro h
    simp [prev, h]
  · intro h
    exact ⟨by simp [next, h], by simp [prev, h]⟩
  · intro hA h0 hlen
    constructor
    · intro hne
      have hrange : ¬ (s.currentIndex + 1 < 0 ∨ (s.images.length : Int) ≤ s.currentIndex + 1) := by
        omega
      obtain ⟨img, himg⟩ :=
        jsIndex_in_range s.images (s.currentIndex + 1) (by omega) (by omega)
      constructor <;>
        simp [next, hA, hne, goTo, loadImage, preloadAdjacent, hrange, himg]
    · intro hne
      have h1 : ¬ s.currentIndex < 1 := by omega
      have h2 : ¬ (s.images.length : Int) ≤ s.currentIndex - 1 := by omega
      obtain ⟨img, himg⟩ :=
        jsIndex_in_range s.images (s.currentIndex - 1) (by omega) (by omega)
      constructor <;>
        simp [prev, hA, hne, goTo, loadImage, preloadAdjacent, h1, h2, himg]

/-- C9 witness: with five images starting at index 2 (neither end, not
animating), next() moves to 3 and starts one animation, and the full
scenario of two next() calls followed by one prev() ends at index 3. -/
theorem C9_witness :
    ((next fiveImageState).currentIndex = fiveImageState.currentIndex + 1 ∧
     (next fiveImageState).animationsStarted = fiveImageState.animationsStarted + 1) ∧
    (prev (next (next fiveImageState))).currentIndex = 3 :=
  ⟨((C9_nav_bounds fiveImageState).2.2.2 (by decide) (by decide) (by decide)).1 (by decide),
   by decide⟩

/-- C10: Lightbox.open validates only the not-open/not-animating guard
and non-emptiness of the image list; it performs no range check on
startIndex, so for a non-empty list and any startIndex outside
[0, length) the call is not rejected: it proceeds past the guards,
shows the dialog, sets the current index to the out-of-range value, and
performs the image-list lookup at that index, which is undefined — the
property access on the undefined lookup throws a TypeError that
surfaces from open, leaving isOpen false, isAnimating stuck true and
the key handler not installed while the earlier mutations persist. The
index-within-bounds invariant is not enforced at this public entry
point. -/
theorem C10_open_unchecked (s : State) (images : List Image) (i : Int) :
    ((s.isOpen = true ∨ s.isAnimating = true) →
      openLightbox s images i = CallResult.normal s) ∧
    (images = [] → openLightbox s images i = CallResult.normal s) ∧
    (s.isOpen = false → s.isAnimating = false → images ≠ [] →
      (i < 0 ∨ (images.length : Int) ≤ i) →
      (openLightbox s images i).threw = true ∧
      (openLightbox s images i).state.dialogShown = true ∧
      (openLightbox s images i).state.currentIndex = i ∧
      (openLightbox s images i).state.isOpen = false ∧
      (openLightbox s images i).state.isAnimating = true ∧
      (openLightbox s images i).state.keyHandler = s.keyHandler ∧
      jsIndex images i = none) := by
  refine ⟨?_, ?_, ?_⟩
  · rintro (h | h) <;> simp [openLightbox, h]
  · intro h
    simp [openLightbox, h]
  · intro hO hA hne hout
    have hlookup : jsIndex images i = none := by
      unfold jsIndex
      rcases hout with h | h
      · rw [if_neg (not_le.mpr h)]
      · split
        · exact List.get?_eq_none.mpr (by omega)
        · rfl
    simp [openLightbox, hO, hA, hne, loadImage, hlookup,
          CallResult.threw, CallResult.state]

/-- C10 witness: a closed idle lightbox opened with a one-image list at
startIndex 5 passes the guards — the dialog is shown and currentIndex
becomes 5 — then the lookup at index 5 is undefined and the call
surfaces the TypeError with isOpen still false and isAnimating stuck
true. -/
theorem C10_witness :
    (openLightbox idleState [{ src := "a.jpg", alt := "", caption := "" }] 5).threw = true ∧
    (openLightbox idleState [{ src := "a.jpg", alt := "", caption := "" }] 5).state.dialogShown
      = true ∧
    (openLightbox idleState [{ src := "a.jpg", alt := "", caption := "" }] 5).state.currentIndex
      = 5 ∧
    (openLightbox idleState [{ src := "a.jpg", alt := "", caption := "" }] 5).state.isOpen
      = false ∧
    (openLightbox idleState [{ src := "a.jpg", alt := "", caption := "" }] 5).state.isAnimating
      = true ∧
    (openLightbox idleState [{ src := "a.jpg", alt := "", caption := "" }] 5).state.keyHandler
      = idleState.keyHandler ∧
    jsIndex [{ src := "a.jpg", alt := "", caption := "" }] 5 = none :=
  (C10_open_unchecked idleState [{ src := "a.jpg", alt := "", caption := "" }] 5).2.2
    (by decide) (by decide) (by decide) (by decide)

end LightboxTheorems

section WheelTheorems

open CardMorph

/-- C7 (amended): a wheel event is intercepted iff it is horizontal
(|deltaX| > |deltaY|) and |deltaX| is at least the noise threshold 2;
non-intercepted (vertical or tiny) events leave the offset unchanged;
an intercepted event sets the offset to
clamp(currentOffset - deltaX, minX, maxX) immediately, except that when
the clamped value differs from the current offset by at most 0.1 px the
write is skipped and the offset is left unchanged. -/
theorem C7_wheel_capture (x : ℚ) (d : GalleryDims) (e : GWheelEvent) :
    ((galleryWheelHandler x d e).intercepted = true ↔
      (|e.deltaY| < |e.deltaX| ∧ 2 ≤ |e.deltaX|)) ∧
    ((galleryWheelHandler x d e).intercepted = false →
      (galleryWheelHandler x d e).x = x) ∧
    (|e.deltaY| < |e.deltaX| → 2 ≤ |e.deltaX| →
      (1/10 < |jsClamp (updateBounds d).minX (updateBounds d).maxX (x - e.deltaX) - x| →
        (galleryWheelHandler x d e).x =
          jsClamp (updateBounds d).minX (updateBounds d).maxX (x - e.deltaX)) ∧
      (¬ 1/10 < |jsClamp (updateBounds d).minX (updateBounds d).maxX (x - e.deltaX) - x| →
        (galleryWheelHandler x d e).x = x)) := by
  by_cases hg : |e.deltaY| < |e.deltaX| ∧ 2 ≤ |e.deltaX|
  · have hg2 : ¬ (jsAbs e.deltaX ≤ jsAbs e.deltaY ∨ jsAbs e.deltaX < 2) := by
      rw [jsAbs_eq, jsAbs_eq]
      push_neg
      exact ⟨hg.1, hg.2⟩
    by_cases hs : 1/10 < |jsClamp (updateBounds d).minX (updateBounds d).maxX (x - e.deltaX) - x|
    · have hs2 : 1/10 <
          jsAbs (jsClamp (updateBounds d).minX (updateBounds d).maxX (x - e.deltaX) - x) := by
        rw [jsAbs_eq]
        exact hs
      have he : galleryWheelHandler x d e =
          { intercepted := true
            x := jsClamp (updateBounds d).minX (updateBounds d).maxX (x - e.deltaX) } := by
        simp [galleryWheelHandler, hg2, hs2]
        intro hle
        exact absurd (lt_of_lt_of_le hs2 hle) (by norm_num)
      rw [he]
      exact ⟨by simp [hg], by simp, fun _ _ => ⟨fun _ => rfl, fun hns => absurd hs hns⟩⟩
    · have hs2 : ¬ 1/10 <
          jsAbs (jsClamp (updateBounds d).minX (updateBounds d).maxX (x - e.deltaX) - x) := by
        rw [jsAbs_eq]
        exact hs
      have he : galleryWheelHandler x d e = { intercepted := true, x := x } := by
        simp [galleryWheelHandler, hg2, hs2]
        intro hlt
        exact absurd (lt_of_eq_of_lt (by norm_num) hlt) hs2
      rw [he]
      exact ⟨by simp [hg], by simp, fun _ _ => ⟨fun hyes => absurd hyes hs, fun _ => rfl⟩⟩
  · have hg2 : jsAbs e.deltaX ≤ jsAbs e.deltaY ∨ jsAbs e.deltaX < 2 := by
      rw [jsAbs_eq, jsAbs_eq]
      by_contra hc
      push_neg at hc
      exact hg ⟨hc.1, hc.2⟩
    have he : galleryWheelHandler x d e = { intercepted := false, x := x } := by
      simp [galleryWheelHandler, hg2]
    rw [he]
    exact ⟨by simp [hg], fun _ => rfl, fun h1 h2 => absurd ⟨h1, h2⟩ hg⟩

/-- C7 witness: at offset 0 on bounds [-100, 0], a horizontal wheel
event with deltaX = 50 is intercepted and the offset is set immediately
to the clamp value; a vertical event with deltaY = 50 is not
intercepted and leaves the offset unchanged. -/
theorem C7_witness :
    ((galleryWheelHandler 0 smallDims { deltaX := 50, deltaY := 0 }).intercepted = true ∧
     (galleryWheelHandler 0 smallDims { deltaX := 50, deltaY := 0 }).x =
       jsClamp (updateBounds smallDims).minX (updateBounds smallDims).maxX (0 - 50)) ∧
    ((galleryWheelHandler 0 smallDims { deltaX := 0, deltaY := 50 }).intercepted = false ∧
     (galleryWheelHandler 0 smallDims { deltaX := 0, deltaY := 50 }).x = 0) := by
  constructor
  · constructor
    · exact (C7_wheel_capture 0 smallDims { deltaX := 50, deltaY := 0 }).1.mpr
        (by norm_num)
    · exact ((C7_wheel_capture 0 smallDims { deltaX := 50, deltaY := 0 }).2.2
        (by norm_num) (by norm_num)).1
        (by norm_num [smallDims, updateBounds, jsClamp, jsMax, jsMin, abs_sub_lt_iff])
  · constructor
    · have h := (C7_wheel_capture 0 smallDims { deltaX := 0, deltaY := 50 }).1
      by_contra hc
      simp only [Bool.not_eq_false] at hc
      have := h.mp hc
      norm_num at this
    · exact (C7_wheel_capture 0 smallDims { deltaX := 0, deltaY := 50 }).2.1
        (by
          have h := (C7_wheel_capture 0 smallDims { deltaX := 0, deltaY := 50 }).1
          by_contra hc
          simp only [Bool.not_eq_false] at hc
          have := h.mp hc
          norm_num at this)

end WheelTheorems
